import Mathlib

/-!
Verification of the FTP client core of the Acid engine
(`Sources/Network/Ftp`): response model, reply parser, command engine
and data-channel address parsing, embedded shallowly from the C++
headers and the design specification.
-/

namespace Acid

/-! ## Response model (FtpResponseStatus, FtpResponse) -/

/-- Status codes possibly returned by a FTP response, from the
`FtpResponseStatus` enumeration.  Codes are modelled as `Nat`. -/
def FTP_RESPONCE_RESTART_MARKER_REPLY : Nat := 110
def FTP_RESPONCE_SERVICE_READY_SOON : Nat := 120
def FTP_RESPONCE_DATA_CONNECTION_ALREADY_OPENED : Nat := 125
def FTP_RESPONCE_OPENING_DATA_CONNECTION : Nat := 150
def FTP_RESPONCE_OK : Nat := 200
def FTP_RESPONCE_POINTLESS_COMMAND : Nat := 202
def FTP_RESPONCE_SYSTEM_STATUS : Nat := 211
def FTP_RESPONCE_DIRECTORY_STATUS : Nat := 212
def FTP_RESPONCE_FILE_STATUS : Nat := 213
def FTP_RESPONCE_HELP_MESSAGE : Nat := 214
def FTP_RESPONCE_SYSTEM_TYPE : Nat := 215
def FTP_RESPONCE_SERVICE_READY : Nat := 220
def FTP_RESPONCE_CLOSING_CONNECTION : Nat := 221
def FTP_RESPONCE_DATA_CONNECTION_OPENED : Nat := 225
def FTP_RESPONCE_CLOSING_DATA_CONNECTION : Nat := 226
def FTP_RESPONCE_ENTERING_PASSIVE_MODE : Nat := 227
def FTP_RESPONCE_LOGGEDIN : Nat := 230
def FTP_RESPONCE_FILEACTION_OK : Nat := 250
def FTP_RESPONCE_DIRECTORY_OK : Nat := 257
def FTP_RESPONCE_NEED_PASSWORD : Nat := 331
def FTP_RESPONCE_NEED_ACCOUNT_TO_LOGIN : Nat := 332
def FTP_RESPONCE_NEED_INFORMATION : Nat := 350
def FTP_RESPONCE_SERVICE_UNAVAILABLE : Nat := 421
def FTP_RESPONCE_DATA_CONNECTION_UNAVAILABLE : Nat := 425
def FTP_RESPONCE_TRANSFER_ABORTED : Nat := 426
def FTP_RESPONCE_FILE_ACTION_ABORTED : Nat := 450
def FTP_RESPONCE_LOCAL_ERROR : Nat := 451
def FTP_RESPONCE_INSUFFICIENT_STORAGE_SPACE : Nat := 452
def FTP_RESPONCE_COMMAND_UNKNOWN : Nat := 500
def FTP_RESPONCE_PARAMETERS_UNKNOWN : Nat := 501
def FTP_RESPONCE_COMMAND_NOT_IMPLEMENTED : Nat := 502
def FTP_RESPONCE_BAD_COMMAND_SEQUENCE : Nat := 503
def FTP_RESPONCE_PARAMETER_NOT_IMPLEMENTED : Nat := 504
def FTP_RESPONCE_NOT_LOGGEDIN : Nat := 530
def FTP_RESPONCE_NEED_ACCOUNT_TO_STORE : Nat := 532
def FTP_RESPONCE_FILE_UNAVAILABLE : Nat := 550
def FTP_RESPONCE_PAGE_TYPE_UNKNOWN : Nat := 551
def FTP_RESPONCE_NOT_ENOUGH_MEMORY : Nat := 552
def FTP_RESPONCE_FILENAME_NOT_ALLOWED : Nat := 553
def FTP_RESPONCE_INVALID_RESPONSE : Nat := 1000
def FTP_RESPONCE_CONNECTION_FAILED : Nat := 1001
def FTP_RESPONCE_CONNECTION_CLOSED : Nat := 1002
def FTP_RESPONCE_INVALID_FILE : Nat := 1003

/-- The closed enumeration of known FTP codes declared in
`FtpResponseStatus` (standard 1xx-5xx codes). -/
def ftpStandardCodes : List Nat :=
  [110, 120, 125, 150,
   200, 202, 211, 212, 213, 214, 215, 220, 221, 225, 226, 227, 230, 250, 257,
   331, 332, 350,
   421, 425, 426, 450, 451, 452,
   500, 501, 502, 503, 504, 530, 532, 550, 551, 552, 553]

/-- The four client-local sentinel codes of `FtpResponseStatus`
(10xx custom codes). -/
def ftpSentinelCodes : List Nat :=
  [FTP_RESPONCE_INVALID_RESPONSE, FTP_RESPONCE_CONNECTION_FAILED,
   FTP_RESPONCE_CONNECTION_CLOSED, FTP_RESPONCE_INVALID_FILE]

/-- An FTP response: a status code and the last message received from
the server, mirroring the two fields of class `FtpResponse`. -/
structure FtpResponse where
  m_status : Nat
  m_message : String
  deriving DecidableEq, Repr

/-- Modelled from the spec: the body of `FtpResponse::IsOk` is not in the
sources (only the declaration is).  Its declaration's documentation and the
spec state that it is equivalent to testing whether the status code is
`< 400`. -/
def FtpResponse.IsOk (r : FtpResponse) : Bool :=
  r.m_status < 400

/-- `FtpResponse::GetStatus`: status-code accessor. -/
def FtpResponse.GetStatus (r : FtpResponse) : Nat :=
  r.m_status

/-- `FtpResponse::GetFullMessage`: message accessor. -/
def FtpResponse.GetFullMessage (r : FtpResponse) : String :=
  r.m_message

/-- Modelled from the spec: the constructor body of `FtpResponse` is not in
the sources; its declaration carries the default arguments
`code = FTP_RESPONCE_INVALID_RESPONSE` and `message = ""`, and the spec says
construction is a pure value holder.  This is the response produced by the
default constructor `FtpResponse()`. -/
def FtpResponse.defaultConstructed : FtpResponse :=
  ⟨FTP_RESPONCE_INVALID_RESPONSE, ""⟩

/-! ## Claims C1 and C10 -/

/-- Claim C1: for every `FtpResponse`, `IsOk` returns true iff the status
code is strictly less than 400; every code of the closed enumeration agrees
with this classification, and every sentinel code is `≥ 1000`, hence
classified as failure. -/
theorem C1_isOk_iff_status_lt_400 :
    (∀ r : FtpResponse, r.IsOk = true ↔ r.m_status < 400) ∧
    (∀ c ∈ ftpSentinelCodes, 1000 ≤ c) ∧
    (∀ c ∈ ftpSentinelCodes, ∀ m : String, (FtpResponse.mk c m).IsOk = false) := by
  refine ⟨fun r => ?_, ?_, ?_⟩
  · simp [FtpResponse.IsOk]
  · intro c hc
    simp only [ftpSentinelCodes, FTP_RESPONCE_INVALID_RESPONSE,
      FTP_RESPONCE_CONNECTION_FAILED, FTP_RESPONCE_CONNECTION_CLOSED,
      FTP_RESPONCE_INVALID_FILE, List.mem_cons, List.not_mem_nil, or_false] at hc
    omega
  · intro c hc m
    simp only [ftpSentinelCodes, FTP_RESPONCE_INVALID_RESPONSE,
      FTP_RESPONCE_CONNECTION_FAILED, FTP_RESPONCE_CONNECTION_CLOSED,
      FTP_RESPONCE_INVALID_FILE, List.mem_cons, List.not_mem_nil, or_false] at hc
    simp only [FtpResponse.IsOk, decide_eq_false_iff_not, not_lt]
    omega

/-- Witness for C1 at a concrete response. -/
theorem C1_isOk_iff_status_lt_400_witness :
    (FtpResponse.mk 230 "Login successful.").IsOk = true ∧
    (FtpResponse.mk 1000 "").IsOk = false := by
  constructor
  · exact (C1_isOk_iff_status_lt_400.1 (FtpResponse.mk 230 "Login successful.")).2
      (by decide)
  · exact C1_isOk_iff_status_lt_400.2.2 1000 (by decide) ""

/-- Claim C10: a default-constructed `FtpResponse` has the invalid-response
sentinel status (code 1000) and an empty message, and `IsOk` is false on
it. -/
theorem C10_default_response_invalid :
    FtpResponse.defaultConstructed.m_status = FTP_RESPONCE_INVALID_RESPONSE ∧
    FtpResponse.defaultConstructed.m_status = 1000 ∧
    FtpResponse.defaultConstructed.m_message = "" ∧
    FtpResponse.defaultConstructed.IsOk = false := by
  refine ⟨rfl, rfl, rfl, ?_⟩
  decide

/-! ## Reply parser

The control connection accumulates received bytes in `m_receiveBuffer`
until they contain a complete reply.  The byte sequence is modelled as a
`List Char`. -/

/-- Split a received byte sequence into its complete CRLF-terminated lines
and the trailing bytes not yet terminated by CRLF. -/
def splitCRLF : List Char → List (List Char) × List Char
  | [] => ([], [])
  | '\r' :: '\n' :: rest =>
      let p := splitCRLF rest
      ([] :: p.1, p.2)
  | c :: rest =>
      let p := splitCRLF rest
      match p.1 with
      | [] => ([], c :: p.2)
      | l :: ls => ((c :: l) :: ls, p.2)

/-- Branch equation of `splitCRLF` for a head character that does not start
a CRLF pair. -/
theorem splitCRLF_cons_eq (c : Char) (rest : List Char)
    (hne : ∀ (rest1 : List Char), c = '\r' → rest = '\n' :: rest1 → False) :
    splitCRLF (c :: rest) =
      match (splitCRLF rest).1 with
      | [] => ([], c :: (splitCRLF rest).2)
      | l :: ls => ((c :: l) :: ls, (splitCRLF rest).2) := by
  rw [splitCRLF.eq_def]
  split
  · simp_all
  · rename_i rest1 heq
    injection heq with h1 h2
    exact (hne rest1 h1 h2).elim
  · rename_i c1 rest1 hne1 heq
    injection heq with h1 h2
    subst h1; subst h2; rfl

/-- Branch equation of `splitCRLF` for a CRLF pair at the head. -/
theorem splitCRLF_crlf (rest : List Char) :
    splitCRLF ('\r' :: '\n' :: rest) =
      ([] :: (splitCRLF rest).1, (splitCRLF rest).2) := rfl

/-- A buffer with no complete line is kept whole as the remainder. -/
theorem lines_nil_rem (x : List Char) (h : (splitCRLF x).1 = []) :
    (splitCRLF x).2 = x := by
  induction x using splitCRLF.induct with
  | case1 => rfl
  | case2 rest ih => rw [splitCRLF_crlf] at h; simp at h
  | case3 c rest hne p hp ih =>
      have hp' : (splitCRLF rest).1 = [] := hp
      rw [splitCRLF_cons_eq c rest hne, hp']
      simp [ih hp']
  | case4 c rest hne p l ls hp ih =>
      have hp' : (splitCRLF rest).1 = l :: ls := hp
      rw [splitCRLF_cons_eq c rest hne, hp'] at h
      simp at h

/-- Appending received bytes extends the complete lines of a buffer: the
lines of `a ++ b` are the lines of `a` followed by the lines formed from
`a`'s remainder and `b`. -/
theorem splitCRLF_append (a b : List Char) :
    splitCRLF (a ++ b) =
      ((splitCRLF a).1 ++ (splitCRLF ((splitCRLF a).2 ++ b)).1,
       (splitCRLF ((splitCRLF a).2 ++ b)).2) := by
  induction a using splitCRLF.induct with
  | case1 => simp [splitCRLF]
  | case2 rest ih =>
      rw [List.cons_append, List.cons_append, splitCRLF_crlf, splitCRLF_crlf, ih]
      rfl
  | case3 c rest hne p hp ih =>
      have hp' : (splitCRLF rest).1 = [] := hp
      have h1 : (splitCRLF (c :: rest)).1 = [] := by
        rw [splitCRLF_cons_eq c rest hne, hp']
      have h2 : (splitCRLF (c :: rest)).2 = c :: rest :=
        lines_nil_rem _ h1
      rw [h1, h2]
      simp
  | case4 c rest hne p l ls hp ih =>
      have hp' : (splitCRLF rest).1 = l :: ls := hp
      have hrestne : rest ≠ [] := by
        intro hnil
        rw [hnil] at hp'
        simp [splitCRLF] at hp'
      have hne2 : ∀ (rest1 : List Char), c = '\r' → rest ++ b = '\n' :: rest1 → False := by
        intro rest1 hc hr
        rcases rest with _ | ⟨r0, rs⟩
        · exact hrestne rfl
        · rw [List.cons_append] at hr
          injection hr with hr0 _
          exact hne rs hc (by rw [hr0])
      rw [List.cons_append, splitCRLF_cons_eq c (rest ++ b) hne2, ih,
          splitCRLF_cons_eq c rest hne, hp']
      rfl

/-- The complete lines of a buffer stay in place when more bytes arrive. -/
theorem splitCRLF_lines_append (a b : List Char) :
    (splitCRLF (a ++ b)).1 =
      (splitCRLF a).1 ++ (splitCRLF ((splitCRLF a).2 ++ b)).1 := by
  rw [splitCRLF_append]

/-- Decimal value of a digit character. -/
def digitVal (c : Char) : Nat := c.toNat - 48

/-- Parse the leading 3-digit reply code of a line: the code and the rest
of the line, when the line starts with three decimal digits. -/
def parseCode3 : List Char → Option (Nat × List Char)
  | d1 :: d2 :: d3 :: rest =>
      if d1.isDigit ∧ d2.isDigit ∧ d3.isDigit then
        some (digitVal d1 * 100 + digitVal d2 * 10 + digitVal d3, rest)
      else none
  | _ => none

/-- A line terminates a multi-line reply opened with `openCode` iff it
starts with the same 3-digit code followed by a space. -/
def lineTerminates (openCode : Nat) (line : List Char) : Bool :=
  match parseCode3 line with
  | some (c, sep :: _) => c == openCode && sep == ' '
  | _ => false

/-- Scan continuation lines for the terminator of a multi-line reply
opened with `openCode`; yields the reply's lines through the terminator
when the terminator is found. -/
def takeUntilTerm (openCode : Nat) : List (List Char) → Option (List (List Char))
  | [] => none
  | l :: ls =>
      if lineTerminates openCode l then some [l]
      else (takeUntilTerm openCode ls).map (fun t => l :: t)

/-- A parsed reply: the numeric code and the raw received lines of the
reply, in order. -/
structure ParsedReply where
  status : Nat
  lines : List (List Char)
  deriving DecidableEq, Repr

/-- Modelled from the spec: the body of `Ftp::GetResponse` is not in the
sources (only its declaration is).  Following the spec's reply grammar on
the complete lines of the accumulation buffer: a first line `DDD<SP>text`
is a complete single-line reply; a first line `DDD-text` opens a
multi-line reply, complete at the first following line carrying the
matching code and a space; a first line that does not match the
3-digit-code-prefixed grammar yields the invalid-response sentinel;
`none` means no complete reply is present yet. -/
def parseReplyLines : List (List Char) → Option ParsedReply
  | [] => none
  | first :: rest =>
      match parseCode3 first with
      | some (c, sep :: _) =>
          if sep = ' ' then some ⟨c, [first]⟩
          else if sep = '-' then
            (takeUntilTerm c rest).map (fun t => ⟨c, first :: t⟩)
          else some ⟨FTP_RESPONCE_INVALID_RESPONSE, [first]⟩
      | some (_, []) => some ⟨FTP_RESPONCE_INVALID_RESPONSE, [first]⟩
      | none => some ⟨FTP_RESPONCE_INVALID_RESPONSE, [first]⟩

/-- The reply parsed from the accumulation buffer, or `none` when the
buffer does not yet hold a complete reply. -/
def getResponseOfBuffer (buf : List Char) : Option ParsedReply :=
  parseReplyLines (splitCRLF buf).1

/-- Modelled from the spec: the engine blocks, appending each received
chunk to the accumulation buffer and re-checking, until a complete reply
is present. -/
def runReceive : List Char → List (List Char) → Option ParsedReply
  | buf, [] => getResponseOfBuffer buf
  | buf, chunk :: chunks =>
      match getResponseOfBuffer buf with
      | some r => some r
      | none => runReceive (buf ++ chunk) chunks

/-- A found terminator is kept when further lines are appended. -/
theorem takeUntilTerm_append (openCode : Nat) (ls ext t : List (List Char))
    (h : takeUntilTerm openCode ls = some t) :
    takeUntilTerm openCode (ls ++ ext) = some t := by
  induction ls generalizing t with
  | nil => simp [takeUntilTerm] at h
  | cons l ls ih =>
      rw [List.cons_append]
      by_cases hterm : lineTerminates openCode l
      · rw [takeUntilTerm, if_pos hterm] at h ⊢
        exact h
      · rw [takeUntilTerm, if_neg hterm] at h ⊢
        rcases Option.map_eq_some'.mp h with ⟨t', ht', rfl⟩
        rw [ih t' ht']
        rfl

/-- A complete parsed reply is unchanged by lines arriving after it. -/
theorem parseReplyLines_append (ls ext : List (List Char)) (r : ParsedReply)
    (h : parseReplyLines ls = some r) :
    parseReplyLines (ls ++ ext) = some r := by
  match ls with
  | [] => simp [parseReplyLines] at h
  | first :: rest =>
      rw [List.cons_append]
      cases hc : parseCode3 first with
      | none =>
          simp only [parseReplyLines, hc] at h ⊢
          exact h
      | some p =>
          obtain ⟨c, rest1⟩ := p
          cases rest1 with
          | nil =>
              simp only [parseReplyLines, hc] at h ⊢
              exact h
          | cons sep tl =>
              simp only [parseReplyLines, hc] at h ⊢
              by_cases hsp : sep = ' '
              · rw [if_pos hsp] at h ⊢; exact h
              · rw [if_neg hsp] at h ⊢
                by_cases hhy : sep = '-'
                · rw [if_pos hhy] at h ⊢
                  rcases Option.map_eq_some'.mp h with ⟨t, ht, rfl⟩
                  rw [takeUntilTerm_append c rest ext t ht]
                  rfl
                · rw [if_neg hhy] at h ⊢; exact h

/-- A buffer holding a complete reply parses the same after more bytes are
appended to it. -/
theorem getResponseOfBuffer_mono (buf ext : List Char) (r : ParsedReply)
    (h : getResponseOfBuffer buf = some r) :
    getResponseOfBuffer (buf ++ ext) = some r := by
  unfold getResponseOfBuffer at h ⊢
  rw [splitCRLF_lines_append]
  exact parseReplyLines_append _ _ r h

/-- The receive loop yields the parse of the concatenation of the chunks
it consumed. -/
theorem runReceive_eq (buf : List Char) (chunks : List (List Char)) (r : ParsedReply)
    (h : getResponseOfBuffer (buf ++ chunks.flatten) = some r) :
    runReceive buf chunks = some r := by
  induction chunks generalizing buf with
  | nil =>
      rw [runReceive]
      simpa using h
  | cons chunk chunks ih =>
      rw [runReceive]
      cases hb : getResponseOfBuffer buf with
      | some r2 =>
          have hm := getResponseOfBuffer_mono buf (List.flatten (chunk :: chunks)) r2 hb
          rw [hm] at h
          injection h with h
          rw [h]
      | none =>
          apply ih
          rw [List.append_assoc]
          simpa using h

/-! ## Claims C2, C5 and C7 -/

/-- A line matches the 3-digit-code-prefixed reply grammar when it starts
with three decimal digits followed by a space or a hyphen. -/
def lineMatchesGrammar (line : List Char) : Bool :=
  match parseCode3 line with
  | some (_, sep :: _) => sep == ' ' || sep == '-'
  | _ => false

/-- Claim C2: a continuation line beginning with a different 3-digit code
(whatever separator follows it) never terminates a multi-line reply; a
line terminates exactly when its leading code equals the opening code and
is followed by a space; concretely, a reply opened with `230-Hello` is
not complete after the line `200-still talking` and completes at
`230 Done`. -/
theorem C2_multiline_termination :
    (∀ (openCode c : Nat) (line rest1 : List Char),
        parseCode3 line = some (c, rest1) → c ≠ openCode →
        lineTerminates openCode line = false) ∧
    (∀ (openCode : Nat) (line : List Char),
        lineTerminates openCode line = true ↔
          ∃ tl, parseCode3 line = some (openCode, ' ' :: tl)) ∧
    getResponseOfBuffer "230-Hello\r\n200-still talking\r\n".toList = none ∧
    getResponseOfBuffer "230-Hello\r\n200-still talking\r\n230 Done\r\n".toList =
      some ⟨230, ["230-Hello".toList, "200-still talking".toList, "230 Done".toList]⟩ := by
  refine ⟨?_, ?_, by decide, by decide⟩
  · intro openCode c line rest1 h hne
    cases rest1 with
    | nil => simp [lineTerminates, h]
    | cons sep tl => simp [lineTerminates, h, hne]
  · intro openCode line
    cases hc : parseCode3 line with
    | none => simp [lineTerminates, hc]
    | some p =>
        obtain ⟨c, rest1⟩ := p
        cases rest1 with
        | nil => simp [lineTerminates, hc]
        | cons sep tl =>
            simp only [lineTerminates, hc, Bool.and_eq_true, beq_iff_eq,
              Option.some.injEq, Prod.mk.injEq, List.cons.injEq]
            constructor
            · rintro ⟨rfl, rfl⟩
              exact ⟨tl, rfl, rfl, rfl⟩
            · rintro ⟨tl2, rfl, rfl, rfl⟩
              exact ⟨rfl, rfl⟩

/-- Witness for C2: the continuation line `200 still talking`, though it
starts with a 3-digit code and a space, does not terminate a reply opened
with code 230. -/
theorem C2_multiline_termination_witness :
    lineTerminates 230 "200 still talking".toList = false :=
  C2_multiline_termination.1 230 200 "200 still talking".toList
    " still talking".toList (by decide) (by decide)

/-- Claim C5: reply parsing is invariant under input fragmentation: a
complete reply byte sequence fed to the receive loop in one chunk or
split across arbitrarily many chunks yields the identical parsed
(code, lines) pair. -/
theorem C5_fragmentation_invariance :
    ∀ (full : List Char) (chunks : List (List Char)) (r : ParsedReply),
      getResponseOfBuffer full = some r →
      chunks.flatten = full →
      runReceive [] chunks = some r ∧ runReceive [] [full] = some r := by
  intro full chunks r h hj
  constructor
  · apply runReceive_eq
    rw [List.nil_append, hj]
    exact h
  · apply runReceive_eq
    simpa using h

/-- Witness for C5: a two-line reply split at arbitrary points parses to
the same reply as the unsplit sequence. -/
theorem C5_fragmentation_invariance_witness :
    runReceive []
        ["230-H".toList, "i\r\n230 D".toList, "one\r\n".toList] =
      some ⟨230, ["230-Hi".toList, "230 Done".toList]⟩ ∧
    runReceive [] ["230-Hi\r\n230 Done\r\n".toList] =
      some ⟨230, ["230-Hi".toList, "230 Done".toList]⟩ :=
  C5_fragmentation_invariance "230-Hi\r\n230 Done\r\n".toList
    ["230-H".toList, "i\r\n230 D".toList, "one\r\n".toList]
    ⟨230, ["230-Hi".toList, "230 Done".toList]⟩ (by decide) (by decide)

/-- Claim C7: a received line that cannot be parsed as the
3-digit-code-prefixed reply grammar produces a reply with the
invalid-response sentinel status (code 1000) rather than a fatal error;
the sentinel response is classified as a failure, and `getResponseOfBuffer`
is a total function, so a response value is always produced. -/
theorem C7_invalid_grammar_sentinel :
    (∀ (buf first : List Char) (rest : List (List Char)),
        (splitCRLF buf).1 = first :: rest →
        lineMatchesGrammar first = false →
        getResponseOfBuffer buf = some ⟨FTP_RESPONCE_INVALID_RESPONSE, [first]⟩) ∧
    FTP_RESPONCE_INVALID_RESPONSE = 1000 ∧
    (∀ m : String, (FtpResponse.mk FTP_RESPONCE_INVALID_RESPONSE m).IsOk = false) ∧
    getResponseOfBuffer "This is garbage\r\n".toList =
      some ⟨FTP_RESPONCE_INVALID_RESPONSE, ["This is garbage".toList]⟩ := by
  refine ⟨?_, rfl, fun m => rfl, by decide⟩
  intro buf first rest hlines hgram
  unfold getResponseOfBuffer
  rw [hlines]
  cases hc : parseCode3 first with
  | none => simp [parseReplyLines, hc]
  | some p =>
      obtain ⟨c, rest1⟩ := p
      cases rest1 with
      | nil => simp [parseReplyLines, hc]
      | cons sep tl =>
          simp only [lineMatchesGrammar, hc, Bool.or_eq_false_iff, beq_eq_false_iff_ne,
            ne_eq] at hgram
          simp [parseReplyLines, hc, hgram.1, hgram.2]

/-- Witness for C7: a buffer holding one complete line of garbage parses
to the invalid-response sentinel. -/
theorem C7_invalid_grammar_sentinel_witness :
    getResponseOfBuffer "Hello world\r\n".toList =
      some ⟨FTP_RESPONCE_INVALID_RESPONSE, ["Hello world".toList]⟩ :=
  C7_invalid_grammar_sentinel.1 "Hello world\r\n".toList "Hello world".toList []
    (by decide) (by decide)

/-! ## Command/control engine

Commands are sent as CRLF-terminated ASCII lines.  The server side of an
exchange is scripted: a list of replies consumed in order, one per
command that expects a reply. -/

/-- Modelled from the spec: the body of `Ftp::SendCommand` is not in the
sources.  It writes `command SP parameter CRLF` to the control
connection, the space and parameter omitted when the parameter is
empty.  This is the wire line it writes. -/
def commandLine (command parameter : String) : String :=
  if parameter = "" then command ++ "\r\n"
  else command ++ " " ++ parameter ++ "\r\n"

/-- Result of a scripted exchange: the wire lines sent on the control
connection, in order, and the response returned to the caller. -/
structure ExchangeResult where
  sentLines : List String
  response : FtpResponse
  deriving DecidableEq, Repr

/-- Modelled from the spec: the body of `Ftp::Login(name, password)` is
not in the sources.  It sends `USER name`; when the reply is an
intermediate 3xx reply it sends `PASS password` and returns that final
reply; a non-3xx reply to USER is returned directly and PASS is not
sent.  A missing scripted reply stands for a failed receive and yields
the default-constructed invalid response. -/
def login (name password : String) (replies : List FtpResponse) : ExchangeResult :=
  let userReply := replies.headD FtpResponse.defaultConstructed
  if 300 ≤ userReply.m_status ∧ userReply.m_status < 400 then
    let passReply := (replies.drop 1).headD FtpResponse.defaultConstructed
    ⟨[commandLine "USER" name, commandLine "PASS" password], passReply⟩
  else
    ⟨[commandLine "USER" name], userReply⟩

/-- Modelled from the spec: the anonymous `Ftp::Login()` overload uses
fixed literals for the name and password; the spec fixes the name to
`anonymous` and leaves the password literal unspecified, so the password
is a parameter of the model. -/
def loginAnonymous (anonPassword : String) (replies : List FtpResponse) : ExchangeResult :=
  login "anonymous" anonPassword replies

/-- Claim C3: `Login` sends USER first and sends PASS iff the reply to
USER is an intermediate 3xx reply; a non-3xx reply to USER is returned
directly without sending PASS.  Concretely, anonymous login receiving
`331 Please specify the password.` sends PASS and returns the final
`230 Login successful.` reply, a success. -/
theorem C3_login_user_pass :
    (∀ (name password : String) (replies : List FtpResponse),
        ((login name password replies).sentLines =
            [commandLine "USER" name, commandLine "PASS" password] ↔
          300 ≤ (replies.headD FtpResponse.defaultConstructed).m_status ∧
            (replies.headD FtpResponse.defaultConstructed).m_status < 400)) ∧
    (∀ (name password : String) (replies : List FtpResponse),
        ¬(300 ≤ (replies.headD FtpResponse.defaultConstructed).m_status ∧
            (replies.headD FtpResponse.defaultConstructed).m_status < 400) →
        login name password replies =
          ⟨[commandLine "USER" name],
           replies.headD FtpResponse.defaultConstructed⟩) ∧
    (∀ anonPassword : String, anonPassword ≠ "" →
        loginAnonymous anonPassword
            [⟨331, "Please specify the password."⟩, ⟨230, "Login successful."⟩] =
          ⟨["USER anonymous\r\n", "PASS " ++ anonPassword ++ "\r\n"],
           ⟨230, "Login successful."⟩⟩ ∧
        (loginAnonymous anonPassword
            [⟨331, "Please specify the password."⟩,
             ⟨230, "Login successful."⟩]).response.IsOk = true) := by
  refine ⟨?_, ?_, ?_⟩
  · intro name password replies
    constructor
    · intro hsent
      by_contra hnot
      rw [login, if_neg hnot] at hsent
      simp at hsent
    · intro h3xx
      rw [login, if_pos h3xx]
  · intro name password replies hnot
    rw [login, if_neg hnot]
  · intro anonPassword hne
    constructor
    · rw [loginAnonymous, login]
      rw [if_pos (by constructor <;> decide)]
      rw [commandLine, if_neg (by decide), commandLine, if_neg hne]
      rfl
    · rw [loginAnonymous, login, if_pos (by constructor <;> decide)]
      rfl

/-- Witness for C3: anonymous login against the scripted 331-then-230
server, with a concrete password literal. -/
theorem C3_login_user_pass_witness :
    loginAnonymous "guest"
        [⟨331, "Please specify the password."⟩, ⟨230, "Login successful."⟩] =
      ⟨["USER anonymous\r\n", "PASS guest\r\n"], ⟨230, "Login successful."⟩⟩ :=
  (C3_login_user_pass.2.2 "guest" (by decide)).1

/-- Modelled from the spec: the body of `Ftp::createDirectory` is not in
the sources; it sends `MKD name` and returns the server's reply. -/
def createDirectory (name : String) (reply : FtpResponse) : ExchangeResult :=
  ⟨[commandLine "MKD" name], reply⟩

/-- Modelled from the spec: the body of `Ftp::deleteDirectory` is not in
the sources; it sends `RMD name` and returns the server's reply. -/
def deleteDirectory (name : String) (reply : FtpResponse) : ExchangeResult :=
  ⟨[commandLine "RMD" name], reply⟩

/-- Modelled from the spec: the body of `Ftp::deleteFile` is not in the
sources; it sends `DELE name` and returns the server's reply. -/
def deleteFile (name : String) (reply : FtpResponse) : ExchangeResult :=
  ⟨[commandLine "DELE" name], reply⟩

/-- Claim C9: directory creation sends the single CRLF-terminated line
`MKD SP name`, directory removal `RMD SP name`, file deletion
`DELE SP name`, each returning the server's reply. -/
theorem C9_mkd_rmd_dele_lines :
    ∀ (name : String) (reply : FtpResponse), name ≠ "" →
      (createDirectory name reply).sentLines = ["MKD " ++ name ++ "\r\n"] ∧
      (deleteDirectory name reply).sentLines = ["RMD " ++ name ++ "\r\n"] ∧
      (deleteFile name reply).sentLines = ["DELE " ++ name ++ "\r\n"] ∧
      (createDirectory name reply).response = reply ∧
      (deleteDirectory name reply).response = reply ∧
      (deleteFile name reply).response = reply := by
  intro name reply h
  refine ⟨?_, ?_, ?_, rfl, rfl, rfl⟩ <;>
    · simp only [createDirectory, deleteDirectory, deleteFile, commandLine, if_neg h]
      rfl

/-- Witness for C9 at a concrete directory name and reply. -/
theorem C9_mkd_rmd_dele_lines_witness :
    (createDirectory "newdir" ⟨257, "Directory created."⟩).sentLines =
      ["MKD newdir\r\n"] ∧
    (deleteFile "old.txt" ⟨250, "File deleted."⟩).sentLines =
      ["DELE old.txt\r\n"] :=
  ⟨(C9_mkd_rmd_dele_lines "newdir" ⟨257, "Directory created."⟩ (by decide)).1,
   (C9_mkd_rmd_dele_lines "old.txt" ⟨250, "File deleted."⟩ (by decide)).2.2.1⟩

/-- Transfer modes of `FtpTransferMode`. -/
inductive FtpTransferMode where
  | FTP_MODE_BINARY
  | FTP_MODE_ASCII
  deriving DecidableEq, Repr

/-- TYPE command parameter for a transfer mode: `I` for binary, `A` for
ASCII. -/
def modeParam (mode : FtpTransferMode) : String :=
  match mode with
  | FtpTransferMode.FTP_MODE_BINARY => "I"
  | FtpTransferMode.FTP_MODE_ASCII => "A"

/-- Final path component of a file name: the part after the last slash. -/
def basename (s : String) : String :=
  ((s.toList.reverse.takeWhile (fun c => c != '/')).reverse).asString

/-- Modelled from the spec: the body of `Ftp::Download` is not in the
sources.  It sends TYPE, negotiates a data channel via PASV, then sends
`RETR remoteFile` and streams the payload into the local destination
file; when the local file cannot be created or written it returns the
invalid-file sentinel without sending RETR.  `canWriteLocal` stands for
the excluded local-filesystem collaborator's success in creating the
destination file. -/
def download (remoteFile : String) (canWriteLocal : Bool)
    (mode : FtpTransferMode) (finalReply : FtpResponse) : ExchangeResult :=
  if canWriteLocal then
    ⟨[commandLine "TYPE" (modeParam mode), commandLine "PASV" "",
      commandLine "RETR" remoteFile], finalReply⟩
  else
    ⟨[commandLine "TYPE" (modeParam mode), commandLine "PASV" ""],
     ⟨FTP_RESPONCE_INVALID_FILE, ""⟩⟩

/-- Remote target of an upload: `remotePath/basename(localFile)`. -/
def uploadTarget (localFile remotePath : String) : String :=
  if remotePath = "" then basename localFile
  else remotePath ++ "/" ++ basename localFile

/-- Modelled from the spec: the body of `Ftp::Upload` is not in the
sources.  When the local source file is readable it sends TYPE, PASV and
STOR (APPE when appending) and streams the file; a local file that
cannot be read yields the invalid-file sentinel with no command sent.
`canReadLocal` stands for the excluded local-filesystem collaborator's
success in opening the source file. -/
def upload (localFile remotePath : String) (canReadLocal : Bool)
    (mode : FtpTransferMode) (app : Bool) (finalReply : FtpResponse) : ExchangeResult :=
  if canReadLocal then
    ⟨[commandLine "TYPE" (modeParam mode), commandLine "PASV" "",
      commandLine (if app then "APPE" else "STOR") (uploadTarget localFile remotePath)],
     finalReply⟩
  else
    ⟨[], ⟨FTP_RESPONCE_INVALID_FILE, ""⟩⟩

/-- Whether a wire line is a transfer command (RETR, STOR or APPE). -/
def isTransferLine (line : String) : Bool :=
  line.toList.take 4 == "RETR".toList || line.toList.take 4 == "STOR".toList ||
    line.toList.take 4 == "APPE".toList

/-- Claim C6: a download whose local destination cannot be written and an
upload whose local source cannot be read return the invalid-file
sentinel (code 1003); the failing download sends only the complete TYPE
and PASV lines and no transfer command, the failing upload sends
nothing, and both results are classified as failures. -/
theorem C6_invalid_file_sentinel :
    ∀ (remoteFile localFile remotePath : String) (mode : FtpTransferMode)
      (app : Bool) (finalReply : FtpResponse),
      (download remoteFile false mode finalReply).response.m_status =
          FTP_RESPONCE_INVALID_FILE ∧
      FTP_RESPONCE_INVALID_FILE = 1003 ∧
      (download remoteFile false mode finalReply).sentLines =
        [commandLine "TYPE" (modeParam mode), commandLine "PASV" ""] ∧
      isTransferLine (commandLine "TYPE" (modeParam mode)) = false ∧
      isTransferLine (commandLine "PASV" "") = false ∧
      upload localFile remotePath false mode app finalReply =
        ⟨[], ⟨FTP_RESPONCE_INVALID_FILE, ""⟩⟩ ∧
      (download remoteFile false mode finalReply).response.IsOk = false ∧
      (upload localFile remotePath false mode app finalReply).response.IsOk = false := by
  intro remoteFile localFile remotePath mode app finalReply
  refine ⟨rfl, rfl, rfl, ?_, by decide, rfl, rfl, rfl⟩
  cases mode <;> decide

/-- Witness for C6 at concrete file names and mode. -/
theorem C6_invalid_file_sentinel_witness :
    (download "data.bin" false FtpTransferMode.FTP_MODE_BINARY
        ⟨226, "Transfer complete."⟩).response.m_status = FTP_RESPONCE_INVALID_FILE ∧
    upload "notes.txt" "docs" false FtpTransferMode.FTP_MODE_ASCII false
        ⟨226, "Transfer complete."⟩ =
      ⟨[], ⟨FTP_RESPONCE_INVALID_FILE, ""⟩⟩ :=
  ⟨(C6_invalid_file_sentinel "data.bin" "notes.txt" "docs"
      FtpTransferMode.FTP_MODE_BINARY false ⟨226, "Transfer complete."⟩).1,
   (C6_invalid_file_sentinel "data.bin" "notes.txt" "docs"
      FtpTransferMode.FTP_MODE_ASCII false ⟨226, "Transfer complete."⟩).2.2.2.2.2.1⟩

/-! ## Directory path extraction (claim C8) -/

/-- Modelled from the spec: `FtpResponseDirectory`'s sources are not under
src/.  The extracted path is the first quoted substring of the reply
message: the characters between the first double quote and the next one;
a message without a double quote yields the empty path. -/
def extractQuoted (message : List Char) : List Char :=
  match message.dropWhile (fun c => c != '"') with
  | _ :: afterOpen => afterOpen.takeWhile (fun c => c != '"')
  | [] => []

/-- Modelled from the spec: the working-directory path carried by a
`FtpResponseDirectory`; path extraction only applies to 2xx replies. -/
def directoryOf (r : FtpResponse) : String :=
  if 200 ≤ r.m_status ∧ r.m_status < 300 then
    (extractQuoted r.m_message.toList).asString
  else ""

/-- Dropping while a predicate holds skips a block that satisfies it. -/
theorem dropWhile_all_append (p : Char → Bool) (pre rest : List Char)
    (h : ∀ c ∈ pre, p c = true) :
    List.dropWhile p (pre ++ rest) = List.dropWhile p rest := by
  induction pre with
  | nil => rfl
  | cons c cs ih =>
      rw [List.cons_append, List.dropWhile_cons, if_pos (h c (by simp))]
      exact ih (fun x hx => h x (by simp [hx]))

/-- Taking while a predicate holds stops exactly at the first failing
character. -/
theorem takeWhile_all_append (p : Char → Bool) (mid : List Char) (stop : Char)
    (rest : List Char) (hmid : ∀ c ∈ mid, p c = true) (hstop : p stop = false) :
    List.takeWhile p (mid ++ stop :: rest) = mid := by
  induction mid with
  | nil =>
      rw [List.nil_append, List.takeWhile_cons, hstop]
      simp
  | cons c cs ih =>
      rw [List.cons_append, List.takeWhile_cons, hmid c (by simp)]
      simp only [if_true]
      rw [ih (fun x hx => hmid x (by simp [hx]))]

/-- Claim C8: for a successful (2xx) reply, the directory path is the
first quoted substring of the message; a message with no quoted
substring yields the empty path; concretely, the reply
`257 "/home/user" is the current directory.` yields `/home/user`. -/
theorem C8_directory_extraction :
    (∀ (status : Nat) (pre mid post : List Char),
        200 ≤ status → status < 300 →
        (∀ c ∈ pre, c ≠ '"') → (∀ c ∈ mid, c ≠ '"') →
        directoryOf ⟨status, (pre ++ '"' :: (mid ++ '"' :: post)).asString⟩ =
          mid.asString) ∧
    (∀ msg : List Char, (∀ c ∈ msg, c ≠ '"') → extractQuoted msg = []) ∧
    directoryOf ⟨257, "257 \"/home/user\" is the current directory."⟩ =
      "/home/user" := by
  refine ⟨?_, ?_, by decide⟩
  · intro status pre mid post h200 h300 hpre hmid
    have hq : extractQuoted (pre ++ '"' :: (mid ++ '"' :: post)) = mid := by
      rw [extractQuoted.eq_def]
      rw [dropWhile_all_append _ pre _ (fun c hc => by simp [hpre c hc])]
      rw [List.dropWhile_cons, if_neg (by simp)]
      exact takeWhile_all_append _ mid '"' post (fun c hc => by simp [hmid c hc]) (by simp)
    rw [directoryOf, if_pos ⟨h200, h300⟩]
    show (extractQuoted (pre ++ '"' :: (mid ++ '"' :: post))).asString = mid.asString
    rw [hq]
  · intro msg hmsg
    have hnil : List.dropWhile (fun c => c != '"') msg = [] := by
      rw [List.dropWhile_eq_nil_iff]
      intro c hc
      simp [hmsg c hc]
    rw [extractQuoted.eq_def, hnil]

/-- Witness for C8 at a concrete MKD-style 2xx reply. -/
theorem C8_directory_extraction_witness :
    directoryOf ⟨212, ("Current dir is ".toList ++
        '"' :: ("/tmp".toList ++ '"' :: " now.".toList)).asString⟩ = "/tmp" :=
  C8_directory_extraction.1 212 "Current dir is ".toList "/tmp".toList
    " now.".toList (by decide) (by decide) (by decide) (by decide)

/-! ## Passive-mode data-channel address (claim C4) -/

/-- Character of a decimal digit. -/
def digitToChar (d : Nat) : Char := Char.ofNat (48 + d)

/-- Decimal rendering of a natural number, most significant digit
first. -/
def renderNat (n : Nat) : List Char :=
  if n = 0 then ['0']
  else ((Nat.digits 10 n).reverse).map digitToChar

/-- Whether the head of the remaining input is a decimal digit. -/
def headIsDigit : List Char → Bool
  | [] => false
  | c :: _ => c.isDigit

/-- Accumulate the decimal value of the leading digit run. -/
def parseDigitsAux (acc : Nat) : List Char → Nat × List Char
  | [] => (acc, [])
  | c :: rest =>
      if c.isDigit then parseDigitsAux (acc * 10 + digitVal c) rest
      else (acc, c :: rest)

/-- Parse a run of one or more decimal digits at the head. -/
def parseDecimal : List Char → Option (Nat × List Char)
  | [] => none
  | c :: rest =>
      if c.isDigit then some (parseDigitsAux (digitVal c) rest)
      else none

/-- Consume a comma separator. -/
def expectComma : List Char → Option (List Char)
  | ',' :: rest => some rest
  | _ => none

/-- Parse six comma-separated decimal numbers. -/
def parseSixNums (cs : List Char) :
    Option ((Nat × Nat × Nat × Nat × Nat × Nat) × List Char) :=
  (parseDecimal cs).bind fun (a, r1) =>
  (expectComma r1).bind fun s1 =>
  (parseDecimal s1).bind fun (b, r2) =>
  (expectComma r2).bind fun s2 =>
  (parseDecimal s2).bind fun (c, r3) =>
  (expectComma r3).bind fun s3 =>
  (parseDecimal s3).bind fun (d, r4) =>
  (expectComma r4).bind fun s4 =>
  (parseDecimal s4).bind fun (p1, r5) =>
  (expectComma r5).bind fun s5 =>
  (parseDecimal s5).map fun (p2, r6) => ((a, b, c, d, p1, p2), r6)

/-- Modelled from the spec: position in the reply message where the six
numbers start — after the opening parenthesis when there is one, else
after the status code at the first digit. -/
def afterParenOrCode (message : List Char) : List Char :=
  if message.any (fun c => c == '(') then
    (message.dropWhile (fun c => c != '(')).drop 1
  else
    (message.drop 3).dropWhile (fun c => !c.isDigit)

/-- Dotted-decimal rendering of the four address octets. -/
def ipString (a b c d : Nat) : String :=
  Nat.repr a ++ "." ++ Nat.repr b ++ "." ++ Nat.repr c ++ "." ++ Nat.repr d

/-- Modelled from the spec: `FtpDataChannel`'s sources are not under
src/.  The data-channel address is built from a passive-mode reply
message by extracting the six comma-separated decimal numbers
`(a,b,c,d,p1,p2)`: the IP is `a.b.c.d` and the port `p1*256+p2`. -/
def parsePassiveAddress (message : List Char) : Option (String × Nat) :=
  match parseSixNums (afterParenOrCode message) with
  | some ((a, b, c, d, p1, p2), _) => some (ipString a b c d, p1 * 256 + p2)
  | none => none

/-- A rendered digit is a digit character. -/
theorem digitToChar_isDigit (d : Nat) (h : d < 10) :
    (digitToChar d).isDigit = true := by
  interval_cases d <;> decide

/-- Rendering then reading a digit is the identity. -/
theorem digitVal_digitToChar (d : Nat) (h : d < 10) :
    digitVal (digitToChar d) = d := by
  interval_cases d <;> decide

/-- The digit accumulator stops at a non-digit. -/
theorem parseDigitsAux_stop (acc : Nat) (rest : List Char)
    (h : headIsDigit rest = false) :
    parseDigitsAux acc rest = (acc, rest) := by
  cases rest with
  | nil => rfl
  | cons c cs =>
      rw [parseDigitsAux, if_neg]
      rw [headIsDigit] at h
      simp [h]

/-- The digit accumulator consumes exactly a block of rendered digits. -/
theorem parseDigitsAux_map (L : List Nat) (acc : Nat) (rest : List Char)
    (hL : ∀ d ∈ L, d < 10) (h : headIsDigit rest = false) :
    parseDigitsAux acc (L.map digitToChar ++ rest) =
      (List.foldl (fun a d => a * 10 + d) acc L, rest) := by
  induction L generalizing acc with
  | nil =>
      rw [List.map_nil, List.nil_append, List.foldl_nil]
      exact parseDigitsAux_stop acc rest h
  | cons d ds ih =>
      have hd : d < 10 := hL d (by simp)
      rw [List.map_cons, List.cons_append, parseDigitsAux,
          if_pos (digitToChar_isDigit d hd), digitVal_digitToChar d hd,
          List.foldl_cons]
      exact ih (acc * 10 + d) (fun x hx => hL x (by simp [hx]))

/-- Folding the decimal step over big-endian digits computes the value. -/
theorem foldl_reverse_ofDigits (L : List Nat) (acc : Nat) :
    List.foldl (fun a d => a * 10 + d) acc L.reverse =
      acc * 10 ^ L.length + Nat.ofDigits 10 L := by
  induction L generalizing acc with
  | nil => simp [Nat.ofDigits]
  | cons d ds ih =>
      rw [List.reverse_cons, List.foldl_append, List.foldl_cons, List.foldl_nil,
          ih, Nat.ofDigits_cons, List.length_cons]
      ring

/-- Rendering then parsing a decimal number is the identity. -/
theorem parseDecimal_render (n : Nat) (rest : List Char)
    (h : headIsDigit rest = false) :
    parseDecimal (renderNat n ++ rest) = some (n, rest) := by
  by_cases hn : n = 0
  · subst hn
    rw [renderNat, if_pos rfl, List.cons_append, List.nil_append, parseDecimal,
        if_pos (by decide)]
    rw [parseDigitsAux_stop _ rest h]
    rfl
  · rw [renderNat, if_neg hn]
    have hdig : ∀ d ∈ (Nat.digits 10 n).reverse, d < 10 := by
      intro d hd
      rw [List.mem_reverse] at hd
      exact Nat.digits_lt_base (by norm_num) hd
    cases hL : (Nat.digits 10 n).reverse with
    | nil =>
        exfalso
        rw [List.reverse_eq_nil_iff] at hL
        exact hn (Nat.digits_eq_nil_iff_eq_zero.mp hL)
    | cons c cs =>
        rw [hL] at hdig
        have hc : c < 10 := hdig c (by simp)
        rw [List.map_cons, List.cons_append, parseDecimal,
            if_pos (digitToChar_isDigit c hc), digitVal_digitToChar c hc]
        rw [parseDigitsAux_map cs c rest (fun x hx => hdig x (by simp [hx])) h]
        have hval : List.foldl (fun a d => a * 10 + d) c cs = n := by
          have h0 : List.foldl (fun a d => a * 10 + d) 0 (c :: cs) =
              List.foldl (fun a d => a * 10 + d) c cs := by
            rw [List.foldl_cons]
            norm_num
          rw [← h0, ← hL, foldl_reverse_ofDigits]
          simp [Nat.ofDigits_digits]
        rw [hval]

/-- A comma is not a digit. -/
theorem headIsDigit_comma (l : List Char) : headIsDigit (',' :: l) = false := rfl

/-- Rendered form of the six comma-separated numbers of a passive-mode
reply. -/
def renderPassiveGroup (a b c d p1 p2 : Nat) : List Char :=
  renderNat a ++ ',' :: (renderNat b ++ ',' :: (renderNat c ++ ',' ::
    (renderNat d ++ ',' :: (renderNat p1 ++ ',' :: renderNat p2))))

/-- Rendering then parsing the six-number group is the identity. -/
theorem parseSixNums_render (a b c d p1 p2 : Nat) (rest : List Char)
    (h : headIsDigit rest = false) :
    parseSixNums (renderPassiveGroup a b c d p1 p2 ++ rest) =
      some ((a, b, c, d, p1, p2), rest) := by
  rw [renderPassiveGroup, parseSixNums]
  simp only [List.append_assoc, List.cons_append]
  rw [parseDecimal_render a _ (headIsDigit_comma _)]
  simp only [Option.some_bind, expectComma]
  rw [parseDecimal_render b _ (headIsDigit_comma _)]
  simp only [Option.some_bind, expectComma]
  rw [parseDecimal_render c _ (headIsDigit_comma _)]
  simp only [Option.some_bind, expectComma]
  rw [parseDecimal_render d _ (headIsDigit_comma _)]
  simp only [Option.some_bind, expectComma]
  rw [parseDecimal_render p1 _ (headIsDigit_comma _)]
  simp only [Option.some_bind, expectComma]
  rw [parseDecimal_render p2 _ h]
  rfl

/-- The six numbers are located right after the opening parenthesis. -/
theorem afterParenOrCode_paren (pre R : List Char) (hpre : '(' ∉ pre) :
    afterParenOrCode (pre ++ '(' :: R) = R := by
  rw [afterParenOrCode, if_pos (by simp)]
  rw [dropWhile_all_append _ pre _ (fun c hc => by
    simp only [bne_iff_ne, ne_eq]
    intro hp
    exact hpre (hp ▸ hc))]
  rw [List.dropWhile_cons, if_neg (by simp)]
  rfl

/-- Claim C4: a passive-mode reply message carrying six comma-separated
decimal numbers `(a,b,c,d,p1,p2)` yields the data-channel address
`a.b.c.d` and port `p1*256+p2`; concretely the reply
`227 Entering Passive Mode (192,168,1,10,19,136).` yields address
`192.168.1.10` and port `5000`. -/
theorem C4_passive_address :
    (∀ (pre post : List Char) (a b c d p1 p2 : Nat),
        '(' ∉ pre →
        parsePassiveAddress
            (pre ++ '(' :: (renderPassiveGroup a b c d p1 p2 ++ ')' :: post)) =
          some (ipString a b c d, p1 * 256 + p2)) ∧
    parsePassiveAddress "227 Entering Passive Mode (192,168,1,10,19,136).".toList =
      some ("192.168.1.10", 5000) ∧
    19 * 256 + 136 = 5000 := by
  refine ⟨?_, by decide, by decide⟩
  intro pre post a b c d p1 p2 hpre
  rw [parsePassiveAddress, afterParenOrCode_paren pre _ hpre]
  rw [parseSixNums_render a b c d p1 p2 (')' :: post) rfl]

/-- Witness for C4 at a concrete reply text built from rendered octets. -/
theorem C4_passive_address_witness :
    parsePassiveAddress ("Entering. ".toList ++
        '(' :: (renderPassiveGroup 10 0 0 1 4 2 ++ ')' :: [])) =
      some (ipString 10 0 0 1, 4 * 256 + 2) :=
  C4_passive_address.1 "Entering. ".toList [] 10 0 0 1 4 2 (by decide)

end Acid
